import Mathlib

/-!
Verification development for the "curious explorer" exploration
orchestration engine.  The definitions below are a shallow embedding of
the TypeScript source: the recursive item tree, the Tree Store
operations (`findPathToNode`, `updateItemInTree`), the session reducer,
the context-query builder and the asynchronous pipeline (`explore`,
`analyzeStructure`, `generateVisualAssets`, `detectPartCoordinates`).
External AI and storage services are modelled as an oracle record whose
results parameterise the pipeline.
-/

set_option maxHeartbeats 1000000

namespace CuriousExplorer

/-- JavaScript substring test on lists of characters
(`hay.includes(needle)`); true for the empty needle. -/
def startsWithList : List Char → List Char → Bool
  | _, [] => true
  | [], _ :: _ => false
  | c :: t, c2 :: t2 => c == c2 && startsWithList t t2

/-- JavaScript `hay.includes(needle)` over char lists. -/
def hasSubList : List Char → List Char → Bool
  | [], needle => needle.isEmpty
  | c :: t, needle => startsWithList (c :: t) needle || hasSubList t needle

/-- JavaScript `s.toLowerCase()`: lower-case every character. -/
def jsToLower (s : String) : String :=
  String.mk (s.data.map Char.toLower)

/-- Case-insensitive substring containment:
`hay.toLowerCase().includes(needle.toLowerCase())`. -/
def containsCI (hay needle : String) : Bool :=
  hasSubList (jsToLower hay).data (jsToLower needle).data

/-- JavaScript `x || d` for a possibly-absent string (absent and the
empty string are falsy). -/
def jsOr (x : Option String) (d : String) : String :=
  match x with
  | some s => if s == "" then d else s
  | none => d

/-- A part record with normalized planar coordinates (types.ts `ItemPart`). -/
structure ItemPart where
  id : String
  name : String
  description : String
  x : Int
  y : Int
deriving DecidableEq, Repr

/-- The image bundle (types.ts `ItemImages`): `exploded` is mandatory,
the other two views optional. -/
structure ItemImages where
  assembled : Option String
  cutaway : Option String
  exploded : String
deriving DecidableEq, Repr

/-- A label/value characteristic (types.ts `ItemCharacteristic`). -/
structure ItemCharacteristic where
  label : String
  value : String
deriving DecidableEq, Repr

/-- The scalar fields of one explored item (types.ts `ExploredItem`
minus the recursive `children` field). -/
structure ItemData where
  id : String
  rootId : String
  name : String
  category : String
  description : String
  images : Option ItemImages
  parts : List ItemPart
  facts : List String
  characteristics : List ItemCharacteristic
  parentId : Option String
  depth : Nat
  timestamp : Nat
deriving DecidableEq, Repr

/-- One node of the exploration tree (types.ts `ExploredItem`): scalar
data plus an ordered list of recursive children. -/
inductive ExploredItem : Type where
  | node (data : ItemData) (children : List ExploredItem) : ExploredItem
deriving Repr

/-- Scalar data of a node. -/
def ExploredItem.data : ExploredItem → ItemData
  | .node d _ => d

/-- Children list of a node. -/
def ExploredItem.children : ExploredItem → List ExploredItem
  | .node _ cs => cs

/-- Item id. -/
def ExploredItem.id (t : ExploredItem) : String := t.data.id

/-- Item display name. -/
def ExploredItem.name (t : ExploredItem) : String := t.data.name

/-- Item depth. -/
def ExploredItem.depth (t : ExploredItem) : Nat := t.data.depth

/-- Item parts list. -/
def ExploredItem.parts (t : ExploredItem) : List ItemPart := t.data.parts

/-- Item image bundle. -/
def ExploredItem.images (t : ExploredItem) : Option ItemImages := t.data.images

mutual

/-- ExplorerContext.tsx `findPathToNode`: depth-first search returning
the chain of items from `root` down to the node with id `targetId`. -/
def findPathToNode (root : ExploredItem) (targetId : String) : Option (List ExploredItem) :=
  match root with
  | .node d cs =>
    if d.id == targetId then some [root]
    else
      match findPathInChildren cs targetId with
      | some path => some (root :: path)
      | none => none

/-- The `for (const child of root.children)` loop of `findPathToNode`:
first successful recursive search among the children. -/
def findPathInChildren (children : List ExploredItem) (targetId : String) : Option (List ExploredItem) :=
  match children with
  | [] => none
  | c :: cs =>
    match findPathToNode c targetId with
    | some path => some path
    | none => findPathInChildren cs targetId

end

/-- `existingChildren.some(c => c.id === newChild.id)`. -/
def hasChildId (children : List ExploredItem) (cid : String) : Bool :=
  children.any (fun c => c.id == cid)

mutual

/-- ExplorerContext.tsx `updateItemInTree`: rebuild the tree with
`newChild` appended to the children of the node with id `targetId`,
unless a child with the same id already exists. -/
def updateItemInTree (root : ExploredItem) (targetId : String) (newChild : ExploredItem) : ExploredItem :=
  match root with
  | .node d cs =>
    if d.id == targetId then
      .node d (if hasChildId cs newChild.id then cs else cs ++ [newChild])
    else
      .node d (updateChildrenInTree cs targetId newChild)

/-- The `root.children.map(child => updateItemInTree ...)` of
`updateItemInTree`. -/
def updateChildrenInTree (children : List ExploredItem) (targetId : String) (newChild : ExploredItem) : List ExploredItem :=
  match children with
  | [] => []
  | c :: cs => updateItemInTree c targetId newChild :: updateChildrenInTree cs targetId newChild

end

mutual

/-- Whether a node with the given id occurs in the subtree. -/
def containsId : ExploredItem → String → Bool
  | .node d cs, tid => d.id == tid || anyContainsId cs tid

/-- Whether a node with the given id occurs in one of the subtrees. -/
def anyContainsId : List ExploredItem → String → Bool
  | [], _ => false
  | c :: cs, tid => containsId c tid || anyContainsId cs tid

end

/-- The id skeleton of a tree, used to state id-structure equality. -/
inductive IdTree : Type where
  | node (id : String) (children : List IdTree) : IdTree
deriving Repr

mutual

/-- Erase everything but the ids from a tree. -/
def toIdTree : ExploredItem → IdTree
  | .node d cs => .node d.id (toIdTreeList cs)

/-- Erase everything but the ids from a list of trees. -/
def toIdTreeList : List ExploredItem → List IdTree
  | [] => []
  | c :: cs => toIdTree c :: toIdTreeList cs

end

/-- Every consecutive pair of the list is a true parent→child link. -/
def linked : List ExploredItem → Prop
  | [] => True
  | [_] => True
  | a :: b :: t => b ∈ a.children ∧ linked (b :: t)

/-- Pipeline stage tags (types.ts `GenerationStatus.stage`). -/
inductive Stage : Type where
  | idle
  | analyzing
  | rendering_assembled
  | rendering_details
  | scanning
  | complete
  | error
deriving DecidableEq, Repr

/-- Transient pipeline progress value (types.ts `GenerationStatus`). -/
structure GenerationStatus where
  isGenerating : Bool
  stage : Stage
  message : Option String
  currentFacts : Option (List String)
deriving DecidableEq, Repr

/-- Generation mode: `fast` | `full`. -/
inductive GenMode : Type where
  | fast
  | full
deriving DecidableEq, Repr

/-- types.ts `PerspectiveType`. -/
inductive PerspectiveType : Type where
  | General | Industrial | Scientific | Conceptual
deriving DecidableEq, Repr

/-- types.ts `StyleType`. -/
inductive StyleType : Type where
  | Default | Schematic | Drawing
deriving DecidableEq, Repr

/-- types.ts `DetailLevelType`. -/
inductive DetailLevelType : Type where
  | Simple | Normal | Detailed
deriving DecidableEq, Repr

/-- types.ts `GenerationOptions`. -/
structure GenerationOptions where
  perspective : PerspectiveType
  style : StyleType
  detailLevel : DetailLevelType
deriving DecidableEq, Repr

/-- `Partial<GenerationOptions>` as used by SET_GENERATION_OPTIONS. -/
structure GenOptionsPatch where
  perspective : Option PerspectiveType
  style : Option StyleType
  detailLevel : Option DetailLevelType
deriving DecidableEq, Repr

/-- JavaScript object spread `{...base, ...patch}` over the options. -/
def mergeOptions (base : GenerationOptions) (patch : GenOptionsPatch) : GenerationOptions :=
  { perspective := patch.perspective.getD base.perspective,
    style := patch.style.getD base.style,
    detailLevel := patch.detailLevel.getD base.detailLevel }

/-- The whole application state (types.ts `AppState`). -/
structure AppState where
  currentItem : Option ExploredItem
  history : List ExploredItem
  collection : List ExploredItem
  status : GenerationStatus
  generationMode : GenMode
  generationOptions : GenerationOptions
  isConfigured : Bool
  isOffline : Bool

/-- The action union of the reducer (types.ts `ExploreAction` plus the
provider-local RECONFIGURE action). -/
inductive ExploreAction : Type where
  | UPDATE_SESSION (currentItem : ExploredItem) (history : List ExploredItem) (root : ExploredItem)
  | INIT_COLLECTION (items : List ExploredItem)
  | REMOVE_FROM_COLLECTION (id : String)
  | LOAD_FROM_COLLECTION (item : ExploredItem)
  | SET_STATUS (status : GenerationStatus)
  | NAVIGATE_TO (targetId : String)
  | SET_GENERATION_MODE (mode : GenMode)
  | SET_GENERATION_OPTIONS (patch : GenOptionsPatch)
  | CONFIGURE_ACCESS (isOffline : Bool)
  | RESET
  | RECONFIGURE

/-- ExplorerContext.tsx `initialState`. -/
def initialState : AppState :=
  { currentItem := none,
    history := [],
    collection := [],
    status := { isGenerating := false, stage := Stage.idle, message := none, currentFacts := none },
    generationMode := GenMode.full,
    generationOptions :=
      { perspective := PerspectiveType.General, style := StyleType.Default,
        detailLevel := DetailLevelType.Normal },
    isConfigured := false,
    isOffline := false }

/-- `newCollection[existingIdx] = root` after a successful `findIndex`:
replace the first element carrying the same id. -/
def replaceFirstById : List ExploredItem → ExploredItem → List ExploredItem
  | [], _ => []
  | x :: xs, r => if x.id == r.id then r :: xs else x :: replaceFirstById xs r

/-- ExplorerContext.tsx `reducer`. -/
def reducer (state : AppState) (action : ExploreAction) : AppState :=
  match action with
  | .UPDATE_SESSION currentItem history root =>
    let newCollection :=
      if state.collection.any (fun i => i.id == root.id) then
        replaceFirstById state.collection root
      else
        root :: state.collection
    { state with currentItem := some currentItem, history := history, collection := newCollection }
  | .INIT_COLLECTION items => { state with collection := items }
  | .REMOVE_FROM_COLLECTION id =>
    { state with collection := state.collection.filter (fun item => !(item.id == id)) }
  | .LOAD_FROM_COLLECTION rootItem =>
    { state with
        currentItem := some rootItem,
        history := [rootItem],
        status := { isGenerating := false, stage := Stage.idle, message := none, currentFacts := none } }
  | .SET_STATUS s => { state with status := s }
  | .NAVIGATE_TO targetId =>
    match state.history with
    | [] => state
    | currentRoot :: _ =>
      match findPathToNode currentRoot targetId with
      | none => state
      | some newPath =>
        { state with currentItem := newPath.getLast?, history := newPath }
  | .SET_GENERATION_MODE m => { state with generationMode := m }
  | .SET_GENERATION_OPTIONS patch =>
    { state with generationOptions := mergeOptions state.generationOptions patch }
  | .CONFIGURE_ACCESS off => { state with isConfigured := true, isOffline := off }
  | .RESET =>
    { initialState with
        collection := state.collection,
        generationMode := state.generationMode,
        generationOptions := state.generationOptions,
        isConfigured := state.isConfigured,
        isOffline := state.isOffline }
  | .RECONFIGURE =>
    { initialState with
        collection := state.collection,
        generationMode := state.generationMode,
        generationOptions := state.generationOptions,
        isConfigured := false,
        isOffline := false }

/-! ### External AI capability, modelled as an oracle -/

/-- The raw (duck-typed) payload parsed from the analysis response;
every field may be missing (gemini.ts `data.name || query` defaults). -/
structure RawAnalysis where
  name : Option String
  category : Option String
  description : Option String
  partNames : Option (List String)
  facts : Option (List String)
  characteristics : Option (List ItemCharacteristic)
deriving Repr

/-- One entry of the coordinate-detection response. -/
structure RawPart where
  name : String
  description : String
  x : Int
  y : Int
deriving DecidableEq, Repr

/-- The semantic content of an image-generation prompt: which view is
requested, for which subject, with which (filtered) part names.  The
literal prompt text is never inspected by the orchestration logic. -/
inductive ImagePrompt : Type where
  | explodedFast (subject : String) (parts : List String)
  | assembledView (subject : String)
  | cutawayView (subject : String)
  | explodedRefView (subject : String) (parts : List String)
deriving DecidableEq, Repr

/-- The external AI capability and clock: analysis responses, per-prompt
image-generation outcomes (absence is a normal outcome), raw coordinate
detection (failure modelled as an error), the configured API key, and
`Date.now()`. -/
structure AIOracle where
  hasKey : Bool
  now : Nat
  analyzeRaw : String → Except Unit RawAnalysis
  gen : ImagePrompt → Option String → Option String
  detectRaw : String → List String → Except Unit (List RawPart)

/-- gemini.ts `StructureAnalysis`. -/
structure StructureAnalysis where
  id : String
  name : String
  category : String
  description : String
  partNames : List String
  facts : List String
  characteristics : List ItemCharacteristic
deriving Repr

/-- gemini.ts `analyzeStructure`: fails when no key is configured or the
service errors; otherwise fills defaults over the raw payload. -/
def analyzeStructure (oracle : AIOracle) (query : String) : Except String StructureAnalysis :=
  if !oracle.hasKey then Except.error "API Key required for analysis"
  else
    match oracle.analyzeRaw query with
    | Except.error _ => Except.error "Failed to analyze object structure."
    | Except.ok data =>
      Except.ok
        { id := toString oracle.now,
          name := jsOr data.name query,
          category := jsOr data.category "Unknown",
          description := jsOr data.description "No description.",
          partNames := data.partNames.getD [],
          facts := data.facts.getD [],
          characteristics := data.characteristics.getD [] }

/-- gemini.ts part-name filtering inside `generateVisualAssets`: drop a
part whose lower-cased name equals one of the subject tokens. -/
def safePartNames (subject : String) (partNames : List String) : List String :=
  let subjectTokens := (jsToLower subject).splitOn " "
  partNames.filter (fun part => !(subjectTokens.contains (jsToLower part)))

/-- gemini.ts `generateVisualAssets`: fast mode generates only the
exploded view (absent result fails the step); full mode generates
assembled first (absent result yields no images), then cutaway and
exploded against it, each falling back to the assembled image. -/
def generateVisualAssets (oracle : AIOracle) (subject : String) (partNames : List String)
    (mode : GenMode) (initialReferenceImage : Option String) : Option ItemImages :=
  if !oracle.hasKey then none
  else
    let safeParts := safePartNames subject partNames
    match mode with
    | GenMode.fast =>
      match oracle.gen (ImagePrompt.explodedFast subject safeParts) initialReferenceImage with
      | none => none
      | some e =>
        if e == "" then none
        else some { assembled := none, cutaway := none, exploded := e }
    | GenMode.full =>
      match oracle.gen (ImagePrompt.assembledView subject) initialReferenceImage with
      | none => none
      | some a =>
        if a == "" then none
        else
          let cutaway := oracle.gen (ImagePrompt.cutawayView subject) (some a)
          let exploded := oracle.gen (ImagePrompt.explodedRefView subject safeParts) (some a)
          some { assembled := some a, cutaway := some (jsOr cutaway a), exploded := jsOr exploded a }

/-- gemini.ts `detectPartCoordinates`: empty list when the image is
absent, no key is configured, or the service fails; otherwise the parsed
parts with generated ids. -/
def detectPartCoordinates (oracle : AIOracle) (explodedImageBase64 : String)
    (partNames : List String) : List ItemPart :=
  if explodedImageBase64 == "" || !oracle.hasKey then []
  else
    match oracle.detectRaw explodedImageBase64 partNames with
    | Except.error _ => []
    | Except.ok partsData =>
      partsData.enum.map (fun p =>
        { id := toString oracle.now ++ "-" ++ toString p.1,
          name := p.2.name, description := p.2.description, x := p.2.x, y := p.2.y })

/-! ### Context Builder and Session Controller pipeline -/

/-- The dedup loop of the context builder, `for (let i = len-1; i > 0;
i--)`: run the iterations for counters `k, k-1, ..., 1`, where iteration
`i` blanks element `i-1` when element `i` contains it case-insensitively. -/
def runDedup : Array String → Nat → Array String
  | arr, 0 => arr
  | arr, i + 1 =>
    let arr2 :=
      if containsCI (arr.getD (i + 1) "") (arr.getD i "") then arr.setD i "" else arr
    runDedup arr2 i

/-- ExplorerContext.tsx `explore` lines 289–312: the context-aware query.
When a parent id is given and the session history is non-empty, look up
the path to the parent, deduplicate the ancestor names, and produce
`"<query> from <joined names>"`; otherwise the bare query. -/
def buildContextQuery (state : AppState) (query : String) (parentId : Option String) : String :=
  match parentId, state.history with
  | some pid, currentRoot :: _ =>
    match findPathToNode currentRoot pid with
    | some path =>
      let parts := path.map (fun p => p.name)
      let cleanParts := runDedup parts.toArray (parts.length - 1)
      let contextString := String.intercalate " " (cleanParts.toList.filter (fun p => !(p == "")))
      query ++ " from " ++ contextString
    | none => query
  | _, _ => query

/-- ExplorerContext.tsx `explore` lines 264–277: the memory-hit lookup
among the children of the current item (bidirectional case-insensitive
substring containment), only attempted for child requests. -/
def memoryHit (state : AppState) (query : String) (parentId : Option String) : Option ExploredItem :=
  match parentId, state.currentItem with
  | some _, some cur =>
    cur.children.find? (fun c => containsCI c.name query || containsCI query c.name)
  | _, _ => none

/-- The synthetic-placement fallback of the scan stage: generated id,
provided name, generic description, stacked coordinates. -/
def syntheticParts (oracle : AIOracle) (partNames : List String) : List ItemPart :=
  partNames.enum.map (fun p =>
    { id := toString oracle.now ++ "-" ++ toString p.1,
      name := p.2,
      description := "Visual analysis unavailable.",
      x := 50,
      y := 50 + (p.1 : Int) * 10 })

/-- Status dispatched when generation is attempted offline. -/
def offlineErrorStatus : GenerationStatus :=
  { isGenerating := false, stage := Stage.error,
    message := some "Offline Mode: Cannot generate new explorations.", currentFacts := none }

/-- Status dispatched by the catch-all handler of `explore`. -/
def systemErrorStatus : GenerationStatus :=
  { isGenerating := false, stage := Stage.error,
    message := some "Exploration failed. System Error.", currentFacts := none }

/-- Terminal success status. -/
def completeStatus : GenerationStatus :=
  { isGenerating := false, stage := Stage.complete, message := none, currentFacts := none }

/-- ExplorerContext.tsx `explore` lines 345–359 (the scan stage): when an
exploded image exists, dispatch the scanning status and detect
coordinates on it; otherwise fall back to synthetic placements. -/
def scanStep (oracle : AIOracle) (images : Option ItemImages) (partNames : List String)
    (facts : List String) : List ExploreAction × List ItemPart :=
  match images with
  | some im =>
    if !(im.exploded == "") then
      ([ExploreAction.SET_STATUS
          { isGenerating := true, stage := Stage.scanning,
            message := some "Calibrating component locations...", currentFacts := some facts }],
       detectPartCoordinates oracle im.exploded partNames)
    else ([], syntheticParts oracle partNames)
  | none => ([], syntheticParts oracle partNames)

/-- ExplorerContext.tsx line 322, `parentId ? contextQuery :
structure.name`: the strict display name of the compiled item. -/
def effectiveNameFor (parentId : Option String) (contextQuery analysisName : String) : String :=
  match parentId with
  | some _ => contextQuery
  | none => analysisName

/-- The `analyzing` status dispatch of `explore`. -/
def analyzingAction (query : String) : ExploreAction :=
  ExploreAction.SET_STATUS
    { isGenerating := true, stage := Stage.analyzing,
      message := some ("Analyzing structure of " ++ query ++ "..."), currentFacts := none }

/-- The `rendering_assembled` status dispatch of `explore`, carrying the
rotating fact list. -/
def renderingAction (mode : GenMode) (facts : List String) : ExploreAction :=
  ExploreAction.SET_STATUS
    { isGenerating := true, stage := Stage.rendering_assembled,
      message := some
        (match mode with
         | GenMode.full => "Constructing base model..."
         | GenMode.fast => "Generating schematic..."),
      currentFacts := some facts }

/-- ExplorerContext.tsx line 287: `parentId && state.currentItem ?
state.currentItem.depth + 1 : 0`. -/
def depthFor (parentId : Option String) (currentItem : Option ExploredItem) : Nat :=
  match parentId, currentItem with
  | some _, some cur => cur.depth + 1
  | _, _ => 0

/-- The `completeItem` literal of `explore` (lines 362–376); `rootId`,
`parentId` and `depth` are resolved by the calling branch. -/
def compileItem (st : StructureAnalysis) (effectiveName : String) (images : Option ItemImages)
    (parts : List ItemPart) (rootId : String) (parentId : Option String)
    (depth : Nat) (now : Nat) : ExploredItem :=
  ExploredItem.node
    { id := st.id, rootId := rootId, name := effectiveName, category := st.category,
      description := st.description, images := images, parts := parts,
      facts := st.facts, characteristics := st.characteristics,
      parentId := parentId, depth := depth, timestamp := now } []

/-- The body of the `try` block of `explore` (stages analyze → render →
scan → compile → commit), returned as the list of dispatched actions.
A stage failure ends the list with the terminal error status. -/
def explorePipeline (state : AppState) (oracle : AIOracle) (query : String)
    (parentId : Option String) (referenceImage : Option String) : List ExploreAction :=
  let depth := depthFor parentId state.currentItem
  let contextQuery := buildContextQuery state query parentId
  match analyzeStructure oracle contextQuery with
  | Except.error _ => [analyzingAction query, ExploreAction.SET_STATUS systemErrorStatus]
  | Except.ok st =>
    let effectiveName := effectiveNameFor parentId contextQuery st.name
    let images := generateVisualAssets oracle effectiveName st.partNames state.generationMode referenceImage
    let sp := scanStep oracle images st.partNames st.facts
    match parentId with
    | none =>
      let completeItem := compileItem st effectiveName images sp.2 st.id none depth oracle.now
      [analyzingAction query, renderingAction state.generationMode st.facts] ++ sp.1 ++
        [ExploreAction.UPDATE_SESSION completeItem [completeItem] completeItem,
         ExploreAction.SET_STATUS completeStatus]
    | some pid =>
      match state.history with
      | [] =>
        -- `state.history[0].id` throws on an empty history; the catch
        -- handler turns this into the terminal error status.
        [analyzingAction query, renderingAction state.generationMode st.facts] ++ sp.1 ++
          [ExploreAction.SET_STATUS systemErrorStatus]
      | h0 :: _ =>
        let completeItem := compileItem st effectiveName images sp.2 h0.id (some pid) depth oracle.now
        let newRoot := updateItemInTree h0 pid completeItem
        let newHistory := (findPathToNode newRoot completeItem.id).getD [newRoot, completeItem]
        [analyzingAction query, renderingAction state.generationMode st.facts] ++ sp.1 ++
          [ExploreAction.UPDATE_SESSION completeItem newHistory newRoot,
           ExploreAction.SET_STATUS completeStatus]

/-- ExplorerContext.tsx `explore`: the sequence of reducer actions one
explore request dispatches.  An in-flight request dispatches nothing; a
memory hit only navigates; offline mode without a memory hit errors
without starting the pipeline. -/
def explore (state : AppState) (oracle : AIOracle) (query : String)
    (parentId : Option String) (referenceImage : Option String) : List ExploreAction :=
  if state.status.isGenerating then []
  else
    match memoryHit state query parentId with
    | some existingChild => [ExploreAction.NAVIGATE_TO existingChild.id]
    | none =>
      if state.isOffline then [ExploreAction.SET_STATUS offlineErrorStatus]
      else explorePipeline state oracle query parentId referenceImage

/-- The state after an explore request: all dispatched actions folded
through the reducer. -/
def runExplore (state : AppState) (oracle : AIOracle) (query : String)
    (parentId : Option String) (referenceImage : Option String) : AppState :=
  (explore state oracle query parentId referenceImage).foldl reducer state

/-- Whether an action is a SET_STATUS dispatch carrying the terminal
error stage. -/
def isErrorStatusAction : ExploreAction → Bool
  | .SET_STATUS s => decide (s.stage = Stage.error)
  | _ => false

/-- Whether an action commits a compiled item to the session/tree. -/
def isUpdateSessionAction : ExploreAction → Bool
  | .UPDATE_SESSION _ _ _ => true
  | _ => false

/-! ### Concrete fixtures used by witnesses and counterexamples -/

/-- The idle status value. -/
def idleStatus : GenerationStatus :=
  { isGenerating := false, stage := Stage.idle, message := none, currentFacts := none }

/-- A sample root item record named "Avocado". -/
def sampleAvocadoData : ItemData :=
  { id := "r1", rootId := "r1", name := "Avocado", category := "Food",
    description := "A fruit.", images := none, parts := [], facts := [],
    characteristics := [], parentId := none, depth := 0, timestamp := 1 }

/-- A sample child record named "Avocado Seed" under the avocado root. -/
def sampleSeedData : ItemData :=
  { sampleAvocadoData with id := "c1", name := "Avocado Seed", parentId := some "r1", depth := 1 }

/-- The seed child as a leaf node. -/
def sampleSeedChild : ExploredItem := ExploredItem.node sampleSeedData []

/-- The avocado root without children. -/
def sampleAvocadoRoot : ExploredItem := ExploredItem.node sampleAvocadoData []

/-- The avocado root with the seed child attached. -/
def sampleAvocadoTree : ExploredItem := ExploredItem.node sampleAvocadoData [sampleSeedChild]

/-- A well-formed analysis payload with two part names. -/
def sampleRawAnalysis : RawAnalysis :=
  { name := some "Avocado", category := some "Food", description := some "desc",
    partNames := some ["Skin", "Seed"], facts := some ["fact one"],
    characteristics := some [] }

/-- An oracle whose analysis succeeds, whose image generation always
yields "img", and whose coordinate detection fails. -/
def sampleOracle : AIOracle :=
  { hasKey := true, now := 7,
    analyzeRaw := fun _ => Except.ok sampleRawAnalysis,
    gen := fun _ _ => some "img",
    detectRaw := fun _ _ => Except.error () }

/-- Like `sampleOracle` but every image generation fails. -/
def sampleOracleNoImage : AIOracle := { sampleOracle with gen := fun _ _ => none }

/-- Like `sampleOracle` but the analysis stage fails. -/
def sampleOracleAnalyzeFail : AIOracle :=
  { sampleOracle with analyzeRaw := fun _ => Except.error () }

/-- An online fast-mode session viewing the bare avocado root. -/
def sampleStateFast : AppState :=
  { currentItem := some sampleAvocadoRoot, history := [sampleAvocadoRoot],
    collection := [sampleAvocadoRoot], status := idleStatus,
    generationMode := GenMode.fast, generationOptions := initialState.generationOptions,
    isConfigured := true, isOffline := false }

/-- An offline session viewing the avocado tree with the seed child. -/
def sampleStateOffline : AppState :=
  { sampleStateFast with
      currentItem := some sampleAvocadoTree,
      history := [sampleAvocadoTree], collection := [sampleAvocadoTree], isOffline := true }

/-- The item compiled by a fast-mode root request "Car" against
`sampleOracle` (image generated, coordinate detection failed). -/
def sampleRootRunItem : ExploredItem := ExploredItem.node
  { id := "7", rootId := "7", name := "Avocado", category := "Food",
    description := "desc", images := some { assembled := none, cutaway := none, exploded := "img" },
    parts := [], facts := ["fact one"], characteristics := [],
    parentId := none, depth := 0, timestamp := 7 } []

/-- The item compiled by a fast-mode root request "Car" against
`sampleOracleNoImage` (synthesis failed, synthetic parts). -/
def sampleRootRunItemNoImage : ExploredItem := ExploredItem.node
  { id := "7", rootId := "7", name := "Avocado", category := "Food",
    description := "desc", images := none,
    parts := [{ id := "7-0", name := "Skin", description := "Visual analysis unavailable.",
                x := 50, y := 50 },
              { id := "7-1", name := "Seed", description := "Visual analysis unavailable.",
                x := 50, y := 60 }],
    facts := ["fact one"], characteristics := [],
    parentId := none, depth := 0, timestamp := 7 } []

/-- The item compiled by a fast-mode child request "Avocado Seed" under
the avocado root against `sampleOracle`. -/
def sampleChildRunItem : ExploredItem := ExploredItem.node
  { id := "7", rootId := "r1", name := "Avocado Seed from Avocado", category := "Food",
    description := "desc", images := some { assembled := none, cutaway := none, exploded := "img" },
    parts := [], facts := ["fact one"], characteristics := [],
    parentId := some "r1", depth := 1, timestamp := 7 } []

/-- The avocado root after committing `sampleChildRunItem`. -/
def sampleChildRunRoot : ExploredItem := ExploredItem.node sampleAvocadoData [sampleChildRunItem]

/-! ### Theorems: Tree Store lemmas -/

theorem hasChildId_append_self (cs : List ExploredItem) (c : ExploredItem) :
    hasChildId (cs ++ [c]) c.id = true := by
  simp [hasChildId]

mutual

theorem attach_twice (t : ExploredItem) (pid : String) (c : ExploredItem) :
    updateItemInTree (updateItemInTree t pid c) pid c = updateItemInTree t pid c := by
  cases t with
  | node d cs =>
    by_cases hid : (d.id == pid) = true
    · rw [updateItemInTree, if_pos hid]
      by_cases hc : hasChildId cs c.id = true
      · rw [if_pos hc, updateItemInTree, if_pos hid, if_pos hc]
      · rw [if_neg hc, updateItemInTree, if_pos hid, if_pos (hasChildId_append_self cs c)]
    · rw [updateItemInTree, if_neg hid, updateItemInTree, if_neg hid,
        attachChildren_twice cs pid c]

theorem attachChildren_twice (cs : List ExploredItem) (pid : String) (c : ExploredItem) :
    updateChildrenInTree (updateChildrenInTree cs pid c) pid c = updateChildrenInTree cs pid c := by
  cases cs with
  | nil => rfl
  | cons c0 rest =>
    rw [updateChildrenInTree, updateChildrenInTree, attach_twice c0 pid c,
      attachChildren_twice rest pid c]

end

mutual

theorem findPath_spec (t : ExploredItem) (tid : String) (p : List ExploredItem)
    (h : findPathToNode t tid = some p) :
    p.head? = some t ∧ (∃ x, p.getLast? = some x ∧ x.id = tid) ∧ linked p := by
  cases t with
  | node d cs =>
    rw [findPathToNode] at h
    by_cases hid : (d.id == tid) = true
    · rw [if_pos hid] at h
      injection h with h
      subst h
      exact ⟨rfl, ⟨.node d cs, rfl, eq_of_beq hid⟩, trivial⟩
    · rw [if_neg hid] at h
      cases hq : findPathInChildren cs tid with
      | none => rw [hq] at h; cases h
      | some q =>
        rw [hq] at h
        injection h with h
        subst h
        obtain ⟨c, hmem, hhead, hlast, hlinked⟩ := findPathInChildren_spec cs tid q hq
        cases q with
        | nil => cases hhead
        | cons q0 qrest =>
          injection hhead with hhead
          subst hhead
          refine ⟨rfl, ?_, ?_⟩
          · obtain ⟨x, hx, hxid⟩ := hlast
            exact ⟨x, by rw [List.getLast?_cons_cons]; exact hx, hxid⟩
          · exact ⟨hmem, hlinked⟩

theorem findPathInChildren_spec (cs : List ExploredItem) (tid : String) (q : List ExploredItem)
    (h : findPathInChildren cs tid = some q) :
    ∃ c, c ∈ cs ∧ q.head? = some c ∧ (∃ x, q.getLast? = some x ∧ x.id = tid) ∧ linked q := by
  cases cs with
  | nil => cases h
  | cons c0 rest =>
    rw [findPathInChildren] at h
    cases hq : findPathToNode c0 tid with
    | some q0 =>
      rw [hq] at h
      injection h with h
      obtain ⟨hhead, hlast, hlinked⟩ := findPath_spec c0 tid q0 hq
      rw [← h]
      exact ⟨c0, by simp, hhead, hlast, hlinked⟩
    | none =>
      rw [hq] at h
      obtain ⟨c, hmem, hrest⟩ := findPathInChildren_spec rest tid q h
      exact ⟨c, by simp [hmem], hrest⟩

end

theorem findPathToNode_eq (d : ItemData) (cs : List ExploredItem) (tid : String) :
    findPathToNode (.node d cs) tid =
      if d.id == tid then some [.node d cs]
      else Option.map (fun p => ExploredItem.node d cs :: p) (findPathInChildren cs tid) := by
  rw [findPathToNode]
  by_cases hid : (d.id == tid) = true
  · rw [if_pos hid, if_pos hid]
  · rw [if_neg hid, if_neg hid]
    cases findPathInChildren cs tid <;> rfl

mutual

theorem findPath_none_iff (t : ExploredItem) (tid : String) :
    findPathToNode t tid = none ↔ containsId t tid = false := by
  cases t with
  | node d cs =>
    rw [findPathToNode_eq, containsId]
    by_cases hid : (d.id == tid) = true
    · simp [hid]
    · have hid2 : (d.id == tid) = false := by simpa using hid
      simp [hid2, Option.map_eq_none', findPathInChildren_none_iff cs tid]

theorem findPathInChildren_none_iff (cs : List ExploredItem) (tid : String) :
    findPathInChildren cs tid = none ↔ anyContainsId cs tid = false := by
  cases cs with
  | nil => simp [findPathInChildren, anyContainsId]
  | cons c0 rest =>
    rw [findPathInChildren, anyContainsId, Bool.or_eq_false_iff]
    cases hq : findPathToNode c0 tid with
    | some q =>
      constructor
      · intro hcontra; simp at hcontra
      · rintro ⟨hc0, -⟩
        rw [← findPath_none_iff c0 tid] at hc0
        rw [hc0] at hq
        cases hq
    | none =>
      have hc0 : containsId c0 tid = false := (findPath_none_iff c0 tid).mp hq
      constructor
      · intro hr
        exact ⟨hc0, (findPathInChildren_none_iff rest tid).mp hr⟩
      · rintro ⟨-, hr⟩
        exact (findPathInChildren_none_iff rest tid).mpr hr

end


/-! ### Inversion helpers for the explore trace -/

theorem scanStep_fst (oracle : AIOracle) (images : Option ItemImages)
    (partNames : List String) (facts : List String) :
    (scanStep oracle images partNames facts).1 = [] ∨
      ∃ s, (scanStep oracle images partNames facts).1 = [ExploreAction.SET_STATUS s] := by
  unfold scanStep
  cases images with
  | none => exact Or.inl rfl
  | some im =>
    by_cases h : (im.exploded == "") = true
    · simp only [h]
      exact Or.inl rfl
    · have h2 : (im.exploded == "") = false := by simpa using h
      simp only [h2]
      exact Or.inr ⟨_, rfl⟩

theorem explore_busy (state : AppState) (oracle : AIOracle) (query : String)
    (parentId : Option String) (ref : Option String)
    (hgen : state.status.isGenerating = true) :
    explore state oracle query parentId ref = [] := by
  unfold explore
  rw [if_pos hgen]

theorem explore_memory_hit (state : AppState) (oracle : AIOracle) (query : String)
    (parentId : Option String) (ref : Option String) (c : ExploredItem)
    (hgen : state.status.isGenerating = false)
    (hmh : memoryHit state query parentId = some c) :
    explore state oracle query parentId ref = [ExploreAction.NAVIGATE_TO c.id] := by
  unfold explore
  rw [if_neg (by simp [hgen]), hmh]

theorem explore_offline (state : AppState) (oracle : AIOracle) (query : String)
    (parentId : Option String) (ref : Option String)
    (hgen : state.status.isGenerating = false)
    (hmh : memoryHit state query parentId = none)
    (hoff : state.isOffline = true) :
    explore state oracle query parentId ref = [ExploreAction.SET_STATUS offlineErrorStatus] := by
  unfold explore
  rw [if_neg (by simp [hgen]), hmh, if_pos hoff]

theorem explore_runs_pipeline (state : AppState) (oracle : AIOracle) (query : String)
    (parentId : Option String) (ref : Option String)
    (hgen : state.status.isGenerating = false)
    (hmh : memoryHit state query parentId = none)
    (hoff : state.isOffline = false) :
    explore state oracle query parentId ref = explorePipeline state oracle query parentId ref := by
  unfold explore
  rw [if_neg (by simp [hgen]), hmh, if_neg (by simp [hoff])]

theorem explorePipeline_analyze_error (state : AppState) (oracle : AIOracle) (query : String)
    (parentId : Option String) (ref : Option String) (e : String)
    (han : analyzeStructure oracle (buildContextQuery state query parentId) = Except.error e) :
    explorePipeline state oracle query parentId ref =
      [analyzingAction query, ExploreAction.SET_STATUS systemErrorStatus] := by
  simp only [explorePipeline, han]

theorem explorePipeline_ok_root (state : AppState) (oracle : AIOracle) (query : String)
    (ref : Option String) (st : StructureAnalysis)
    (han : analyzeStructure oracle (buildContextQuery state query none) = Except.ok st) :
    explorePipeline state oracle query none ref =
      (let images := generateVisualAssets oracle st.name st.partNames state.generationMode ref
       let sp := scanStep oracle images st.partNames st.facts
       let item := compileItem st st.name images sp.2 st.id none
         (depthFor none state.currentItem) oracle.now
       [analyzingAction query, renderingAction state.generationMode st.facts] ++ sp.1 ++
         [ExploreAction.UPDATE_SESSION item [item] item,
          ExploreAction.SET_STATUS completeStatus]) := by
  simp only [explorePipeline, han, effectiveNameFor]

theorem explorePipeline_ok_child (state : AppState) (oracle : AIOracle) (query : String)
    (pid : String) (ref : Option String) (st : StructureAnalysis)
    (h0 : ExploredItem) (rest : List ExploredItem)
    (han : analyzeStructure oracle (buildContextQuery state query (some pid)) = Except.ok st)
    (hh : state.history = h0 :: rest) :
    explorePipeline state oracle query (some pid) ref =
      (let ctx := buildContextQuery state query (some pid)
       let images := generateVisualAssets oracle ctx st.partNames state.generationMode ref
       let sp := scanStep oracle images st.partNames st.facts
       let item := compileItem st ctx images sp.2 h0.id (some pid)
         (depthFor (some pid) state.currentItem) oracle.now
       let newRoot := updateItemInTree h0 pid item
       let newHistory := (findPathToNode newRoot item.id).getD [newRoot, item]
       [analyzingAction query, renderingAction state.generationMode st.facts] ++ sp.1 ++
         [ExploreAction.UPDATE_SESSION item newHistory newRoot,
          ExploreAction.SET_STATUS completeStatus]) := by
  simp only [explorePipeline, han, hh, effectiveNameFor]

theorem explorePipeline_ok_child_no_history (state : AppState) (oracle : AIOracle) (query : String)
    (pid : String) (ref : Option String) (st : StructureAnalysis)
    (han : analyzeStructure oracle (buildContextQuery state query (some pid)) = Except.ok st)
    (hh : state.history = []) :
    explorePipeline state oracle query (some pid) ref =
      (let ctx := buildContextQuery state query (some pid)
       let images := generateVisualAssets oracle ctx st.partNames state.generationMode ref
       let sp := scanStep oracle images st.partNames st.facts
       [analyzingAction query, renderingAction state.generationMode st.facts] ++ sp.1 ++
         [ExploreAction.SET_STATUS systemErrorStatus]) := by
  simp only [explorePipeline, han, hh, effectiveNameFor]

/-- Whenever an UPDATE_SESSION action appears in the trace of an explore
request, it carries the item compiled from a successful analysis: its
name is the effective (strict) name, its images are exactly the
synthesis result, and its parts are exactly the scan result. -/
theorem update_session_mem_explore
    (state : AppState) (oracle : AIOracle) (query : String)
    (parentId : Option String) (ref : Option String)
    (item : ExploredItem) (hist : List ExploredItem) (root : ExploredItem)
    (hmem : ExploreAction.UPDATE_SESSION item hist root ∈ explore state oracle query parentId ref) :
    ∃ st, analyzeStructure oracle (buildContextQuery state query parentId) = Except.ok st ∧
      item.name = effectiveNameFor parentId (buildContextQuery state query parentId) st.name ∧
      item.images = generateVisualAssets oracle
        (effectiveNameFor parentId (buildContextQuery state query parentId) st.name)
        st.partNames state.generationMode ref ∧
      item.parts = (scanStep oracle
        (generateVisualAssets oracle
          (effectiveNameFor parentId (buildContextQuery state query parentId) st.name)
          st.partNames state.generationMode ref)
        st.partNames st.facts).2 ∧
      item.children = [] ∧
      item.data.parentId = parentId := by
  by_cases hgen : state.status.isGenerating = true
  · rw [explore_busy state oracle query parentId ref hgen] at hmem
    simp at hmem
  rw [Bool.not_eq_true] at hgen
  cases hmh : memoryHit state query parentId with
  | some c =>
    rw [explore_memory_hit state oracle query parentId ref c hgen hmh] at hmem
    simp at hmem
  | none =>
    by_cases hoff : state.isOffline = true
    · rw [explore_offline state oracle query parentId ref hgen hmh hoff] at hmem
      simp at hmem
    rw [Bool.not_eq_true] at hoff
    rw [explore_runs_pipeline state oracle query parentId ref hgen hmh hoff] at hmem
    cases han : analyzeStructure oracle (buildContextQuery state query parentId) with
    | error e =>
      rw [explorePipeline_analyze_error state oracle query parentId ref e han] at hmem
      simp [analyzingAction] at hmem
    | ok st =>
      refine ⟨st, rfl, ?_⟩
      cases parentId with
      | none =>
        rw [explorePipeline_ok_root state oracle query ref st han] at hmem
        rcases scanStep_fst oracle
          (generateVisualAssets oracle st.name st.partNames state.generationMode ref)
          st.partNames st.facts with hsc | ⟨s, hsc⟩ <;>
        · simp [hsc, analyzingAction, renderingAction] at hmem
          obtain ⟨h1, h2, h3⟩ := hmem
          subst h1
          exact ⟨rfl, rfl, rfl, rfl, rfl⟩
      | some pid =>
        cases hh : state.history with
        | nil =>
          rw [explorePipeline_ok_child_no_history state oracle query pid ref st han hh] at hmem
          rcases scanStep_fst oracle
            (generateVisualAssets oracle (buildContextQuery state query (some pid))
              st.partNames state.generationMode ref)
            st.partNames st.facts with hsc | ⟨s, hsc⟩ <;>
          · simp [hsc, analyzingAction, renderingAction] at hmem
        | cons h0 rest =>
          rw [explorePipeline_ok_child state oracle query pid ref st h0 rest han hh] at hmem
          rcases scanStep_fst oracle
            (generateVisualAssets oracle (buildContextQuery state query (some pid))
              st.partNames state.generationMode ref)
            st.partNames st.facts with hsc | ⟨s, hsc⟩ <;>
          · simp [hsc, analyzingAction, renderingAction] at hmem
            obtain ⟨h1, h2, h3⟩ := hmem
            subst h1
            exact ⟨rfl, rfl, rfl, rfl, rfl⟩

theorem jsOr_ne_empty (x : Option String) (d : String) (hd : ¬(d = "")) :
    ¬(jsOr x d = "") := by
  cases x with
  | none => exact hd
  | some s =>
    show ¬((if (s == "") = true then d else s) = "")
    by_cases hs : (s == "") = true
    · rw [if_pos hs]
      exact hd
    · rw [if_neg hs]
      intro hcon
      exact hs (by rw [hcon]; rfl)

theorem jsOr_none (d : String) : jsOr none d = d := rfl

/-- The trace of a fast-mode root request "Car" against `sampleOracle`. -/
theorem sample_root_trace :
    explore sampleStateFast sampleOracle "Car" none none =
      [analyzingAction "Car", renderingAction GenMode.fast ["fact one"],
       ExploreAction.SET_STATUS
         { isGenerating := true, stage := Stage.scanning,
           message := some "Calibrating component locations...",
           currentFacts := some ["fact one"] },
       ExploreAction.UPDATE_SESSION sampleRootRunItem [sampleRootRunItem] sampleRootRunItem,
       ExploreAction.SET_STATUS completeStatus] := rfl

/-- The trace of a fast-mode root request "Car" against
`sampleOracleNoImage`: synthesis fails, yet the item is committed and
the run completes. -/
theorem sample_root_noimage_trace :
    explore sampleStateFast sampleOracleNoImage "Car" none none =
      [analyzingAction "Car", renderingAction GenMode.fast ["fact one"],
       ExploreAction.UPDATE_SESSION sampleRootRunItemNoImage [sampleRootRunItemNoImage]
         sampleRootRunItemNoImage,
       ExploreAction.SET_STATUS completeStatus] := rfl

/-- The trace of a fast-mode child request "Avocado Seed" under the
avocado root against `sampleOracle`. -/
theorem sample_child_trace :
    explore sampleStateFast sampleOracle "Avocado Seed" (some "r1") none =
      [analyzingAction "Avocado Seed", renderingAction GenMode.fast ["fact one"],
       ExploreAction.SET_STATUS
         { isGenerating := true, stage := Stage.scanning,
           message := some "Calibrating component locations...",
           currentFacts := some ["fact one"] },
       ExploreAction.UPDATE_SESSION sampleChildRunItem [sampleChildRunRoot, sampleChildRunItem]
         sampleChildRunRoot,
       ExploreAction.SET_STATUS completeStatus] := rfl

/-! ### Claims -/

/-- C7: `attachChild` is idempotent by id structure: for every tree,
parent id, and child, attaching the same child twice yields a tree with
the same id structure as attaching it once, and attaching a child whose
id already appears in the children list of the parent is a no-op — no
duplicate child is ever created. -/
theorem claim_C7_attachChild_idempotent :
    (∀ (root : ExploredItem) (pid : String) (c : ExploredItem),
      toIdTree (updateItemInTree (updateItemInTree root pid c) pid c) =
        toIdTree (updateItemInTree root pid c)) ∧
    (∀ (d : ItemData) (cs : List ExploredItem) (c : ExploredItem) (pid : String),
      d.id = pid → hasChildId cs c.id = true →
      updateItemInTree (ExploredItem.node d cs) pid c = ExploredItem.node d cs) := by
  constructor
  · intro root pid c
    rw [attach_twice]
  · intro d cs c pid hid hc
    rw [updateItemInTree, if_pos (by simp [hid] : (d.id == pid) = true), if_pos hc]

/-- Witness for C7 at a concrete tree: re-attaching the seed child to
the avocado root is a no-op and double attachment equals single
attachment by id structure. -/
theorem claim_C7_witness :
    toIdTree (updateItemInTree (updateItemInTree sampleAvocadoRoot "r1" sampleSeedChild) "r1" sampleSeedChild) =
      toIdTree (updateItemInTree sampleAvocadoRoot "r1" sampleSeedChild) ∧
    updateItemInTree (ExploredItem.node sampleAvocadoData [sampleSeedChild]) "r1" sampleSeedChild =
      ExploredItem.node sampleAvocadoData [sampleSeedChild] :=
  ⟨claim_C7_attachChild_idempotent.1 sampleAvocadoRoot "r1" sampleSeedChild,
   claim_C7_attachChild_idempotent.2 sampleAvocadoData [sampleSeedChild] sampleSeedChild "r1"
     rfl rfl⟩

/-- C8: `findPathToNode` returns the full ordered chain from the root to
the node with the target id — first element the root, last element a
node carrying the target id, every consecutive pair a true parent→child
link — and returns none exactly when no node with that id exists in the
subtree. -/
theorem claim_C8_findPath_correct (t : ExploredItem) (tid : String) :
    (∀ p, findPathToNode t tid = some p →
      p.head? = some t ∧ (∃ x, p.getLast? = some x ∧ x.id = tid) ∧ linked p) ∧
    (findPathToNode t tid = none ↔ containsId t tid = false) :=
  ⟨fun p h => findPath_spec t tid p h, findPath_none_iff t tid⟩

/-- Witness for C8 at a concrete tree: the path to the seed child is
the two-element root→child chain, and a missing id yields none. -/
theorem claim_C8_witness :
    ([sampleAvocadoTree, sampleSeedChild].head? = some sampleAvocadoTree ∧
      (∃ x, [sampleAvocadoTree, sampleSeedChild].getLast? = some x ∧ x.id = "c1") ∧
      linked [sampleAvocadoTree, sampleSeedChild]) ∧
    (findPathToNode sampleAvocadoTree "zz" = none ↔ containsId sampleAvocadoTree "zz" = false) :=
  ⟨(claim_C8_findPath_correct sampleAvocadoTree "c1").1 [sampleAvocadoTree, sampleSeedChild] rfl,
   (claim_C8_findPath_correct sampleAvocadoTree "zz").2⟩

/-- C10: a NAVIGATE_TO action whose target id is absent from the tree
of the active root, or received while the history is empty, leaves the
entire application state unchanged. -/
theorem claim_C10_navigateTo_frame (state : AppState) (tid : String)
    (h : state.history = [] ∨
      ∀ h0 rest, state.history = h0 :: rest → containsId h0 tid = false) :
    reducer state (ExploreAction.NAVIGATE_TO tid) = state := by
  simp only [reducer]
  cases hh : state.history with
  | nil => rfl
  | cons h0 rest =>
    rcases h with h | h
    · rw [hh] at h
      cases h
    · simp only [(findPath_none_iff h0 tid).mpr (h h0 rest hh)]

/-- Witness for C10 at a concrete state: navigating to an absent id
leaves the state unchanged. -/
theorem claim_C10_witness :
    reducer sampleStateFast (ExploreAction.NAVIGATE_TO "nope") = sampleStateFast :=
  claim_C10_navigateTo_frame sampleStateFast "nope"
    (Or.inr (fun h0 rest hh => by
      obtain ⟨h1, h2⟩ := List.cons.inj hh
      rw [← h1]
      rfl))

/-- C5: for a child request, a bidirectionally matching existing child
of the current item resolves as a memory hit: no pipeline runs, the
session only navigates to that child — regardless of offline mode; and
when no child matches while offline, the request errors with the
offline message without starting the pipeline. -/
theorem claim_C5_memory_hit (state : AppState) (oracle : AIOracle) (query : String)
    (pid : String) (ref : Option String) (cur : ExploredItem)
    (hgen : state.status.isGenerating = false)
    (hcur : state.currentItem = some cur) :
    ((∃ c ∈ cur.children, (containsCI c.name query || containsCI query c.name) = true) →
      ∃ child, memoryHit state query (some pid) = some child ∧
        (containsCI child.name query || containsCI query child.name) = true ∧
        explore state oracle query (some pid) ref = [ExploreAction.NAVIGATE_TO child.id] ∧
        runExplore state oracle query (some pid) ref =
          reducer state (ExploreAction.NAVIGATE_TO child.id)) ∧
    (memoryHit state query (some pid) = none → state.isOffline = true →
      explore state oracle query (some pid) ref = [ExploreAction.SET_STATUS offlineErrorStatus] ∧
      runExplore state oracle query (some pid) ref = { state with status := offlineErrorStatus }) := by
  constructor
  · rintro ⟨c, hc, hmatch⟩
    have hfind : (cur.children.find?
        (fun c => containsCI c.name query || containsCI query c.name)).isSome := by
      rw [List.find?_isSome]
      exact ⟨c, hc, hmatch⟩
    obtain ⟨child, hchild⟩ := Option.isSome_iff_exists.mp hfind
    have hmh : memoryHit state query (some pid) = some child := by
      unfold memoryHit
      rw [hcur]
      exact hchild
    refine ⟨child, hmh, ?_, ?_, ?_⟩
    · have h2 := List.find?_some hchild
      exact h2
    · exact explore_memory_hit state oracle query (some pid) ref child hgen hmh
    · unfold runExplore
      rw [explore_memory_hit state oracle query (some pid) ref child hgen hmh]
      rfl
  · intro hmh hoff
    refine ⟨explore_offline state oracle query (some pid) ref hgen hmh hoff, ?_⟩
    unfold runExplore
    rw [explore_offline state oracle query (some pid) ref hgen hmh hoff]
    rfl

/-- Witness for C5 at a concrete offline session: querying "Seed"
memory-hits the child "Avocado Seed" and navigates, while querying
"Pit" errors with the offline message. -/
theorem claim_C5_witness :
    (∃ child, memoryHit sampleStateOffline "Seed" (some "r1") = some child ∧
      (containsCI child.name "Seed" || containsCI "Seed" child.name) = true ∧
      explore sampleStateOffline sampleOracle "Seed" (some "r1") none =
        [ExploreAction.NAVIGATE_TO child.id] ∧
      runExplore sampleStateOffline sampleOracle "Seed" (some "r1") none =
        reducer sampleStateOffline (ExploreAction.NAVIGATE_TO child.id)) ∧
    (explore sampleStateOffline sampleOracle "Pit" (some "r1") none =
      [ExploreAction.SET_STATUS offlineErrorStatus] ∧
      runExplore sampleStateOffline sampleOracle "Pit" (some "r1") none =
        { sampleStateOffline with status := offlineErrorStatus }) :=
  ⟨(claim_C5_memory_hit sampleStateOffline sampleOracle "Seed" "r1" none sampleAvocadoTree
      rfl rfl).1 ⟨sampleSeedChild, List.mem_cons_self sampleSeedChild [], rfl⟩,
   (claim_C5_memory_hit sampleStateOffline sampleOracle "Pit" "r1" none sampleAvocadoTree
      rfl rfl).2 rfl rfl⟩

/-- C4: pipeline failure atomicity.  When a request that reaches the
pipeline fails — blocked offline, or the analysis stage errors — the
dispatched trace contains exactly one error status, it is the terminal
action, no UPDATE_SESSION is dispatched, and the current item, history
and collection keep their pre-request values. -/
theorem claim_C4_failure_atomicity (state : AppState) (oracle : AIOracle) (query : String)
    (parentId : Option String) (ref : Option String)
    (hgen : state.status.isGenerating = false)
    (hmh : memoryHit state query parentId = none)
    (hfail : state.isOffline = true ∨
      (state.isOffline = false ∧
        ∃ e, analyzeStructure oracle (buildContextQuery state query parentId) = Except.error e)) :
    ((explore state oracle query parentId ref).filter isErrorStatusAction).length = 1 ∧
    (∃ s, (explore state oracle query parentId ref).getLast? = some (ExploreAction.SET_STATUS s) ∧
      s.stage = Stage.error) ∧
    (∀ a ∈ explore state oracle query parentId ref, isUpdateSessionAction a = false) ∧
    (runExplore state oracle query parentId ref).currentItem = state.currentItem ∧
    (runExplore state oracle query parentId ref).history = state.history ∧
    (runExplore state oracle query parentId ref).collection = state.collection ∧
    (runExplore state oracle query parentId ref).status.stage = Stage.error := by
  unfold runExplore
  rcases hfail with hoff | ⟨hoff, e, han⟩
  · rw [explore_offline state oracle query parentId ref hgen hmh hoff]
    refine ⟨rfl, ⟨offlineErrorStatus, rfl, rfl⟩, ?_, rfl, rfl, rfl, rfl⟩
    intro a ha
    rw [List.mem_singleton] at ha
    subst ha
    rfl
  · rw [explore_runs_pipeline state oracle query parentId ref hgen hmh hoff,
      explorePipeline_analyze_error state oracle query parentId ref e han]
    refine ⟨rfl, ⟨systemErrorStatus, rfl, rfl⟩, ?_, rfl, rfl, rfl, rfl⟩
    intro a ha
    rcases List.mem_cons.mp ha with h | h
    · subst h
      rfl
    · rw [List.mem_singleton] at h
      subst h
      rfl

/-- Witness for C4 at a concrete run whose analysis stage fails: one
terminal error status, no commit, state fields unchanged. -/
theorem claim_C4_witness :
    ((explore sampleStateFast sampleOracleAnalyzeFail "Car" none none).filter
      isErrorStatusAction).length = 1 ∧
    (∃ s, (explore sampleStateFast sampleOracleAnalyzeFail "Car" none none).getLast? =
      some (ExploreAction.SET_STATUS s) ∧ s.stage = Stage.error) ∧
    (∀ a ∈ explore sampleStateFast sampleOracleAnalyzeFail "Car" none none,
      isUpdateSessionAction a = false) ∧
    (runExplore sampleStateFast sampleOracleAnalyzeFail "Car" none none).currentItem =
      sampleStateFast.currentItem ∧
    (runExplore sampleStateFast sampleOracleAnalyzeFail "Car" none none).history =
      sampleStateFast.history ∧
    (runExplore sampleStateFast sampleOracleAnalyzeFail "Car" none none).collection =
      sampleStateFast.collection ∧
    (runExplore sampleStateFast sampleOracleAnalyzeFail "Car" none none).status.stage =
      Stage.error :=
  claim_C4_failure_atomicity sampleStateFast sampleOracleAnalyzeFail "Car" none none rfl rfl
    (Or.inr ⟨rfl, "Failed to analyze object structure.", rfl⟩)

/-- C6: in full mode, a failed assembled generation yields no images at
all; when assembled succeeds, cutaway and exploded are generated against
it and each failed view falls back to the assembled image, so the bundle
always has all three views populated. -/
theorem claim_C6_full_mode_synthesis (oracle : AIOracle) (subject : String)
    (partNames : List String) (ref : Option String)
    (hkey : oracle.hasKey = true) :
    ((oracle.gen (ImagePrompt.assembledView subject) ref = none →
        generateVisualAssets oracle subject partNames GenMode.full ref = none) ∧
     (∀ a, oracle.gen (ImagePrompt.assembledView subject) ref = some a → a = "" →
        generateVisualAssets oracle subject partNames GenMode.full ref = none)) ∧
    (∀ a, oracle.gen (ImagePrompt.assembledView subject) ref = some a → ¬(a = "") →
      generateVisualAssets oracle subject partNames GenMode.full ref =
        some { assembled := some a,
               cutaway := some (jsOr (oracle.gen (ImagePrompt.cutawayView subject) (some a)) a),
               exploded := jsOr (oracle.gen (ImagePrompt.explodedRefView subject
                 (safePartNames subject partNames)) (some a)) a } ∧
      (oracle.gen (ImagePrompt.cutawayView subject) (some a) = none →
        jsOr (oracle.gen (ImagePrompt.cutawayView subject) (some a)) a = a) ∧
      (oracle.gen (ImagePrompt.explodedRefView subject (safePartNames subject partNames))
          (some a) = none →
        jsOr (oracle.gen (ImagePrompt.explodedRefView subject (safePartNames subject partNames))
          (some a)) a = a) ∧
      ¬(jsOr (oracle.gen (ImagePrompt.cutawayView subject) (some a)) a = "") ∧
      ¬(jsOr (oracle.gen (ImagePrompt.explodedRefView subject (safePartNames subject partNames))
          (some a)) a = "")) := by
  refine ⟨⟨?_, ?_⟩, ?_⟩
  · intro hg
    simp [generateVisualAssets, hkey, hg]
  · intro a hg ha
    simp [generateVisualAssets, hkey, hg, ha]
  · intro a hg ha
    have ha2 : (a == "") = false := by simpa using ha
    refine ⟨?_, ?_, ?_, jsOr_ne_empty _ a ha, jsOr_ne_empty _ a ha⟩
    · simp [generateVisualAssets, hkey, hg, ha2]
    · intro hc
      rw [hc]
      exact jsOr_none a
    · intro he
      rw [he]
      exact jsOr_none a

/-- Witness for C6: with every generation failing the full-mode bundle
is absent; with generation succeeding the bundle carries all three
views. -/
theorem claim_C6_witness :
    generateVisualAssets sampleOracleNoImage "Car" ["Skin", "Seed"] GenMode.full none = none ∧
    (generateVisualAssets sampleOracle "Car" ["Skin", "Seed"] GenMode.full none =
      some { assembled := some "img",
             cutaway := some (jsOr (sampleOracle.gen (ImagePrompt.cutawayView "Car")
               (some "img")) "img"),
             exploded := jsOr (sampleOracle.gen (ImagePrompt.explodedRefView "Car"
               (safePartNames "Car" ["Skin", "Seed"])) (some "img")) "img" } ∧
      (sampleOracle.gen (ImagePrompt.cutawayView "Car") (some "img") = none →
        jsOr (sampleOracle.gen (ImagePrompt.cutawayView "Car") (some "img")) "img" = "img") ∧
      (sampleOracle.gen (ImagePrompt.explodedRefView "Car" (safePartNames "Car" ["Skin", "Seed"]))
          (some "img") = none →
        jsOr (sampleOracle.gen (ImagePrompt.explodedRefView "Car"
          (safePartNames "Car" ["Skin", "Seed"])) (some "img")) "img" = "img") ∧
      ¬(jsOr (sampleOracle.gen (ImagePrompt.cutawayView "Car") (some "img")) "img" = "") ∧
      ¬(jsOr (sampleOracle.gen (ImagePrompt.explodedRefView "Car"
          (safePartNames "Car" ["Skin", "Seed"])) (some "img")) "img" = "")) :=
  ⟨(claim_C6_full_mode_synthesis sampleOracleNoImage "Car" ["Skin", "Seed"] none rfl).1.1 rfl,
   (claim_C6_full_mode_synthesis sampleOracle "Car" ["Skin", "Seed"] none rfl).2 "img" rfl
     (by decide)⟩

/-- C9: for a child request the display name of the compiled item is forced
to the context query string, overriding the analysis-returned canonical
name; a root request uses the analysis-returned canonical name. -/
theorem claim_C9_name_override :
    (∀ (state : AppState) (oracle : AIOracle) (query pid : String) (ref : Option String)
       (item : ExploredItem) (hist : List ExploredItem) (root : ExploredItem),
      ExploreAction.UPDATE_SESSION item hist root ∈ explore state oracle query (some pid) ref →
      item.name = buildContextQuery state query (some pid)) ∧
    (∀ (state : AppState) (oracle : AIOracle) (query : String) (ref : Option String)
       (item : ExploredItem) (hist : List ExploredItem) (root : ExploredItem),
      ExploreAction.UPDATE_SESSION item hist root ∈ explore state oracle query none ref →
      ∃ st, analyzeStructure oracle (buildContextQuery state query none) = Except.ok st ∧
        item.name = st.name) := by
  constructor
  · intro state oracle query pid ref item hist root hmem
    obtain ⟨st, han, hname, -⟩ :=
      update_session_mem_explore state oracle query (some pid) ref item hist root hmem
    exact hname
  · intro state oracle query ref item hist root hmem
    obtain ⟨st, han, hname, -⟩ :=
      update_session_mem_explore state oracle query none ref item hist root hmem
    exact ⟨st, han, hname⟩

/-- Witness for C9 at concrete runs: the committed child item is named
by the context query; the committed root item is named by the analysis
result. -/
theorem claim_C9_witness :
    sampleChildRunItem.name = buildContextQuery sampleStateFast "Avocado Seed" (some "r1") ∧
    ∃ st, analyzeStructure sampleOracle (buildContextQuery sampleStateFast "Car" none) =
      Except.ok st ∧ sampleRootRunItem.name = st.name :=
  ⟨claim_C9_name_override.1 sampleStateFast sampleOracle "Avocado Seed" "r1" none
      sampleChildRunItem [sampleChildRunRoot, sampleChildRunItem] sampleChildRunRoot
      (by rw [sample_child_trace]
          exact List.Mem.tail _ (List.Mem.tail _ (List.Mem.tail _ (List.Mem.head _)))),
   claim_C9_name_override.2 sampleStateFast sampleOracle "Car" none
      sampleRootRunItem [sampleRootRunItem] sampleRootRunItem
      (by rw [sample_root_trace]
          exact List.Mem.tail _ (List.Mem.tail _ (List.Mem.tail _ (List.Mem.head _))))⟩

theorem generateVisualAssets_fast_cases (oracle : AIOracle) (subject : String)
    (partNames : List String) (ref : Option String) :
    generateVisualAssets oracle subject partNames GenMode.fast ref = none ∨
    ∃ e, generateVisualAssets oracle subject partNames GenMode.fast ref =
      some { assembled := none, cutaway := none, exploded := e } ∧ ¬(e = "") := by
  cases hk : oracle.hasKey with
  | false =>
    left
    simp [generateVisualAssets, hk]
  | true =>
    cases hg : oracle.gen (ImagePrompt.explodedFast subject (safePartNames subject partNames))
        ref with
    | none =>
      left
      simp [generateVisualAssets, hk, hg]
    | some e =>
      by_cases he : (e == "") = true
      · left
        simp [generateVisualAssets, hk, hg, he]
      · right
        refine ⟨e, ?_, by simpa using he⟩
        have he2 : (e == "") = false := by simpa using he
        simp [generateVisualAssets, hk, hg, he2]

/-- C2 counterexample: with generation mode `fast` and the single
exploded generation failing, the pipeline still completes successfully
and commits an item with no images at all — contradicting the claim
that the step failure prevents completing with an image-less item. -/
theorem claim_C2_counterexample :
    sampleStateFast.generationMode = GenMode.fast ∧
    (runExplore sampleStateFast sampleOracleNoImage "Car" none none).status = completeStatus ∧
    (runExplore sampleStateFast sampleOracleNoImage "Car" none none).currentItem =
      some sampleRootRunItemNoImage ∧
    sampleRootRunItemNoImage.images = none :=
  ⟨rfl, rfl, rfl, rfl⟩

/-- C2 (amended): in fast mode a committed item carries either no image
bundle at all — the synthesis step failed, yet the pipeline still
completes with an image-less item — or a bundle consisting exactly of a
non-empty exploded view; a bundle with an absent exploded view is
impossible. -/
theorem claim_C2_fast_mode_amended (state : AppState) (oracle : AIOracle) (query : String)
    (parentId : Option String) (ref : Option String)
    (item : ExploredItem) (hist : List ExploredItem) (root : ExploredItem)
    (hmode : state.generationMode = GenMode.fast)
    (hmem : ExploreAction.UPDATE_SESSION item hist root ∈ explore state oracle query parentId ref) :
    item.images = none ∨
    ∃ e, item.images = some { assembled := none, cutaway := none, exploded := e } ∧
      ¬(e = "") := by
  obtain ⟨st, han, hname, himg, -⟩ :=
    update_session_mem_explore state oracle query parentId ref item hist root hmem
  rw [hmode] at himg
  rcases generateVisualAssets_fast_cases oracle
    (effectiveNameFor parentId (buildContextQuery state query parentId) st.name)
    st.partNames ref with h | ⟨e, h, he⟩
  · exact Or.inl (himg.trans h)
  · exact Or.inr ⟨e, himg.trans h, he⟩

/-- Witness for the amended C2 at a concrete fast-mode run whose
exploded generation succeeds. -/
theorem claim_C2_witness :
    sampleRootRunItem.images = none ∨
    ∃ e, sampleRootRunItem.images =
      some { assembled := none, cutaway := none, exploded := e } ∧ ¬(e = "") :=
  claim_C2_fast_mode_amended sampleStateFast sampleOracle "Car" none none
    sampleRootRunItem [sampleRootRunItem] sampleRootRunItem rfl
    (by rw [sample_root_trace]
        exact List.Mem.tail _ (List.Mem.tail _ (List.Mem.tail _ (List.Mem.head _))))

/-- C3 counterexample: when the exploded image exists but coordinate
detection fails, the parts list of the committed item is empty even though
the analysis produced a non-empty part-name list — contradicting the
claim that detection failure yields synthetic placements. -/
theorem claim_C3_counterexample :
    (∃ st, analyzeStructure sampleOracle (buildContextQuery sampleStateFast "Car" none) =
      Except.ok st ∧ st.partNames = ["Skin", "Seed"]) ∧
    (runExplore sampleStateFast sampleOracle "Car" none none).status = completeStatus ∧
    (runExplore sampleStateFast sampleOracle "Car" none none).currentItem =
      some sampleRootRunItem ∧
    sampleRootRunItem.images = some { assembled := none, cutaway := none, exploded := "img" } ∧
    sampleRootRunItem.parts = [] :=
  ⟨⟨_, rfl, rfl⟩, rfl, rfl, rfl, rfl⟩

/-- C3 (amended): the synthetic placement — generated id, provided name,
generic "unavailable" description, coordinates x=50, y=50+10·index, one
per part name — applies exactly when no exploded image exists (or it is
empty); when an exploded image exists and detection fails, the scan
yields the empty parts list. -/
theorem claim_C3_scan_fallback_amended (oracle : AIOracle) (partNames : List String)
    (facts : List String) :
    ((scanStep oracle none partNames facts).2 = syntheticParts oracle partNames ∧
     ∀ im : ItemImages, im.exploded = "" →
       (scanStep oracle (some im) partNames facts).2 = syntheticParts oracle partNames) ∧
    ((syntheticParts oracle partNames).length = partNames.length ∧
     ∀ (i : Nat) (name : String), partNames[i]? = some name →
       (syntheticParts oracle partNames)[i]? = some
         { id := toString oracle.now ++ "-" ++ toString i, name := name,
           description := "Visual analysis unavailable.", x := 50,
           y := 50 + (i : Int) * 10 }) ∧
    (∀ im : ItemImages, ¬(im.exploded = "") →
      ∀ e, oracle.detectRaw im.exploded partNames = Except.error e →
      (scanStep oracle (some im) partNames facts).2 =
        detectPartCoordinates oracle im.exploded partNames ∧
      detectPartCoordinates oracle im.exploded partNames = []) := by
  refine ⟨⟨rfl, ?_⟩, ⟨?_, ?_⟩, ?_⟩
  · intro im him
    simp [scanStep, him]
  · simp [syntheticParts]
  · intro i name hname
    simp [syntheticParts, List.getElem?_map, List.getElem?_enum, hname]
  · intro im him e hdet
    have him2 : (im.exploded == "") = false := by simpa using him
    constructor
    · simp [scanStep, him2]
    · cases hk : oracle.hasKey with
      | false => simp [detectPartCoordinates, hk]
      | true => simp [detectPartCoordinates, him2, hk, hdet]

/-- Witness for the amended C3: with no image the parts are the
synthetic stack (second entry at x=50, y=60); with an image present and
detection failing the parts list is empty. -/
theorem claim_C3_witness :
    (scanStep sampleOracle none ["Skin", "Seed"] []).2 =
      syntheticParts sampleOracle ["Skin", "Seed"] ∧
    (syntheticParts sampleOracle ["Skin", "Seed"])[1]? = some
      { id := "7-1", name := "Seed", description := "Visual analysis unavailable.",
        x := 50, y := 60 } ∧
    (scanStep sampleOracle (some { assembled := none, cutaway := none, exploded := "img" })
      ["Skin", "Seed"] []).2 = detectPartCoordinates sampleOracle "img" ["Skin", "Seed"] ∧
    detectPartCoordinates sampleOracle "img" ["Skin", "Seed"] = [] :=
  ⟨(claim_C3_scan_fallback_amended sampleOracle ["Skin", "Seed"] []).1.1,
   (claim_C3_scan_fallback_amended sampleOracle ["Skin", "Seed"] []).2.1.2 1 "Seed" rfl,
   ((claim_C3_scan_fallback_amended sampleOracle ["Skin", "Seed"] []).2.2
     { assembled := none, cutaway := none, exploded := "img" } (by decide) () rfl).1,
   ((claim_C3_scan_fallback_amended sampleOracle ["Skin", "Seed"] []).2.2
     { assembled := none, cutaway := none, exploded := "img" } (by decide) () rfl).2⟩

theorem getD_setD_ne (a : Array String) (i j : Nat) (v d : String) (hne : ¬(i = j)) :
    (a.setD i v).getD j d = a.getD j d := by
  by_cases hi : i < a.size
  · have h1 : a.setD i v = a.set ⟨i, hi⟩ v := dif_pos hi
    rw [h1]
    by_cases hj : j < a.size
    · have e1 : (a.set ⟨i, hi⟩ v).getD j d = (a.set ⟨i, hi⟩ v).get ⟨j, by simpa using hj⟩ :=
        dif_pos (by simpa using hj)
      have e2 : a.getD j d = a.get ⟨j, hj⟩ := dif_pos hj
      rw [e1, e2]
      exact Array.get_set_ne a ⟨i, hi⟩ v hj hne
    · have e1 : (a.set ⟨i, hi⟩ v).getD j d = d := dif_neg (by simpa using hj)
      have e2 : a.getD j d = d := dif_neg hj
      rw [e1, e2]
  · have h1 : a.setD i v = a := dif_neg hi
    rw [h1]

theorem runDedup_getD_high (arr : Array String) (k j : Nat) (hkj : k ≤ j) (d : String) :
    (runDedup arr k).getD j d = arr.getD j d := by
  induction k generalizing arr with
  | zero => rfl
  | succ i ih =>
    rw [runDedup, ih _ (Nat.le_of_succ_le hkj)]
    split
    · exact getD_setD_ne arr i j "" d (fun he => by omega)
    · rfl

/-- C1 counterexample: the dedup loop never sees the query, so the
ancestor "Avocado" is not blanked even though the query "Avocado Seed"
contains it — the builder yields "Avocado Seed from Avocado", not
"Avocado Seed" (nor "Avocado Seed from "). -/
theorem claim_C1_counterexample :
    buildContextQuery sampleStateFast "Avocado Seed" (some "r1") =
      "Avocado Seed from Avocado" ∧
    ¬(buildContextQuery sampleStateFast "Avocado Seed" (some "r1") = "Avocado Seed") ∧
    ¬(buildContextQuery sampleStateFast "Avocado Seed" (some "r1") = "Avocado Seed from ") :=
  ⟨rfl, by decide, by decide⟩

/-- C1 (amended): the deduplication scans only the ancestor names along
the path to the parent — the query is never appended to the scanned
list, so an ancestor contained only in the query is not blanked and the
final path element (the name of the parent itself) always survives the loop;
when the parent lookup succeeds the result is `query ++ " from " ++`
the joined deduplicated ancestor names, and the bare query is returned
exactly when there is no parent id, or the path lookup fails. -/
theorem claim_C1_context_builder_amended :
    (∀ (state : AppState) (query pid : String) (h0 : ExploredItem)
       (rest path : List ExploredItem),
      state.history = h0 :: rest → findPathToNode h0 pid = some path →
      buildContextQuery state query (some pid) =
        query ++ " from " ++ String.intercalate " "
          ((runDedup (path.map (fun p => p.name)).toArray
            ((path.map (fun p => p.name)).length - 1)).toList.filter
              (fun p => !(p == ""))) ∧
      (runDedup (path.map (fun p => p.name)).toArray
          ((path.map (fun p => p.name)).length - 1)).getD
          ((path.map (fun p => p.name)).length - 1) "" =
        (path.map (fun p => p.name)).toArray.getD
          ((path.map (fun p => p.name)).length - 1) "") ∧
    (∀ (state : AppState) (query : String), buildContextQuery state query none = query) ∧
    (∀ (state : AppState) (query pid : String) (h0 : ExploredItem)
       (rest : List ExploredItem),
      state.history = h0 :: rest → findPathToNode h0 pid = none →
      buildContextQuery state query (some pid) = query) := by
  refine ⟨?_, ?_, ?_⟩
  · intro state query pid h0 rest path hh hpath
    constructor
    · simp [buildContextQuery, hh, hpath]
    · exact runDedup_getD_high _ _ _ (Nat.le_refl _) ""
  · intro state query
    rfl
  · intro state query pid h0 rest hh hpath
    simp [buildContextQuery, hh, hpath]

/-- Witness for the amended C1 at the avocado fixture: the context query
for "Avocado Seed" keeps the un-blanked ancestor, and the bare query
comes back for a root request or a failed lookup. -/
theorem claim_C1_witness :
    (buildContextQuery sampleStateFast "Avocado Seed" (some "r1") =
      "Avocado Seed" ++ " from " ++ String.intercalate " "
        ((runDedup ([sampleAvocadoRoot].map (fun p => p.name)).toArray
          (([sampleAvocadoRoot].map (fun p => p.name)).length - 1)).toList.filter
            (fun p => !(p == ""))) ∧
     (runDedup ([sampleAvocadoRoot].map (fun p => p.name)).toArray
        (([sampleAvocadoRoot].map (fun p => p.name)).length - 1)).getD
        (([sampleAvocadoRoot].map (fun p => p.name)).length - 1) "" =
      ([sampleAvocadoRoot].map (fun p => p.name)).toArray.getD
        (([sampleAvocadoRoot].map (fun p => p.name)).length - 1) "") ∧
    buildContextQuery sampleStateFast "Seed" none = "Seed" ∧
    buildContextQuery sampleStateFast "Seed" (some "zz") = "Seed" :=
  ⟨claim_C1_context_builder_amended.1 sampleStateFast "Avocado Seed" "r1" sampleAvocadoRoot
      [] [sampleAvocadoRoot] rfl rfl,
   claim_C1_context_builder_amended.2.1 sampleStateFast "Seed",
   claim_C1_context_builder_amended.2.2 sampleStateFast "Seed" "zz" sampleAvocadoRoot [] rfl rfl⟩

end CuriousExplorer
